import Mathlib

/-!
Shallow embedding of the Kronos-GPT-Quant concurrent state store and
allocation logic (src/trader/state_manager.py and the order-sizing part of
src/trader/main_strategy.py).

Conventions of the embedding:
* Python floats are modelled as rationals (`Rat`); the claims under study are
  about order of operations, sign and structure, not float rounding.
* `datetime.now().isoformat()` timestamps are modelled as a `Nat` clock value
  passed explicitly to each operation.
* Python dicts that are iterated or looked up (the position map) are modelled
  as association lists with purported-unique keys, in insertion order, which
  is the iteration order of a Python dict.
* The fixed-field dicts (`system_status`, `performance_stats`, `risk_metrics`)
  are modelled as structures; `dict.update(data)` becomes applying a delta
  record whose fields are `Option`s (a `some` field is a key present in the
  delta dict).  The code never feeds keys outside the fixed sets to these
  dicts, so the restriction to the known fields is faithful.
* `_push_to_webui` (the Change Notifier hand-off) is modelled by appending the
  event to a `pushed` list in the state; delivery success or failure of the
  HTTP POST does not feed back into the store, so it is not modelled.
-/

namespace Kronos

/-- One entry of the position map.  The source reads only
`info.get("usd_value", 0.0)`; the remaining keys (amount, price, free,
locked) are carried through the dict wholesale and never inspected by the
store, so only `usd_value` is modelled (`none` = key absent). -/
structure PosInfo where
  usd_value : Option Rat
deriving DecidableEq, Repr

/-- The position map `asset symbol -> info` (a Python dict in insertion
order). -/
abbrev Positions := List (String × PosInfo)

/-- Forecast payloads are opaque to the store. -/
abbrev Predictions := List (String × String)

/-- `self.system_status` of `StateManager.__init__`, with `last_update` and
the two run timestamps as optional clock values (`None` initially). -/
structure SystemStatus where
  is_running : Bool
  last_update : Option Nat
  last_strategy_run : Option Nat
  next_strategy_run : Option Nat
  simulation_mode : Bool
  error_count : Nat
  total_runs : Nat
deriving DecidableEq, Repr

/-- A partial-field update for `system_status` (`dict.update`). -/
structure SystemStatusDelta where
  is_running : Option Bool
  last_update : Option Nat
  last_strategy_run : Option Nat
  next_strategy_run : Option Nat
  simulation_mode : Option Bool
  error_count : Option Nat
  total_runs : Option Nat
deriving DecidableEq, Repr

/-- `self.system_status.update(data)` restricted to the fixed field set. -/
def applyStatusDelta (st : SystemStatus) (d : SystemStatusDelta) : SystemStatus :=
  { is_running := d.is_running.getD st.is_running
    last_update := d.last_update <|> st.last_update
    last_strategy_run := d.last_strategy_run <|> st.last_strategy_run
    next_strategy_run := d.next_strategy_run <|> st.next_strategy_run
    simulation_mode := d.simulation_mode.getD st.simulation_mode
    error_count := d.error_count.getD st.error_count
    total_runs := d.total_runs.getD st.total_runs }

/-- `self.performance_stats` of `StateManager.__init__`. -/
structure PerformanceStats where
  total_trades : Nat
  successful_trades : Nat
  failed_trades : Nat
  total_profit_loss : Rat
  total_volume : Rat
  start_balance : Rat
  current_balance : Rat
deriving DecidableEq, Repr

/-- A partial-field update for `performance_stats`. -/
structure PerformanceDelta where
  total_trades : Option Nat
  successful_trades : Option Nat
  failed_trades : Option Nat
  total_profit_loss : Option Rat
  total_volume : Option Rat
  start_balance : Option Rat
  current_balance : Option Rat
deriving DecidableEq, Repr

/-- `self.performance_stats.update(data)`. -/
def applyPerformanceDelta (st : PerformanceStats) (d : PerformanceDelta) : PerformanceStats :=
  { total_trades := d.total_trades.getD st.total_trades
    successful_trades := d.successful_trades.getD st.successful_trades
    failed_trades := d.failed_trades.getD st.failed_trades
    total_profit_loss := d.total_profit_loss.getD st.total_profit_loss
    total_volume := d.total_volume.getD st.total_volume
    start_balance := d.start_balance.getD st.start_balance
    current_balance := d.current_balance.getD st.current_balance }

/-- `self.risk_metrics` of `StateManager.__init__`. -/
structure RiskMetrics where
  total_exposure : Rat
  max_single_position : Rat
  position_count : Nat
  usdt_reserve : Rat
  total_value : Rat
deriving DecidableEq, Repr

/-- A partial-field update for `risk_metrics`. -/
structure RiskDelta where
  total_exposure : Option Rat
  max_single_position : Option Rat
  position_count : Option Nat
  usdt_reserve : Option Rat
  total_value : Option Rat
deriving DecidableEq, Repr

/-- `self.risk_metrics.update(data)`. -/
def applyRiskDelta (st : RiskMetrics) (d : RiskDelta) : RiskMetrics :=
  { total_exposure := d.total_exposure.getD st.total_exposure
    max_single_position := d.max_single_position.getD st.max_single_position
    position_count := d.position_count.getD st.position_count
    usdt_reserve := d.usdt_reserve.getD st.usdt_reserve
    total_value := d.total_value.getD st.total_value }

/-- Payload of a `trade_execution` event.  The source record also carries
price, quantity, confidence, reason and order id; of those the store inspects
only `status` and `volume_usdt` (`none` = key absent), the rest ride along
opaque in the appended record and are summarised by `symbol`/`action`. -/
structure TradeData where
  symbol : String
  action : String
  status : Option String
  volume_usdt : Option Rat
deriving DecidableEq, Repr

/-- A record of the trade-history log: `{"timestamp": now, **trade_data}`. -/
abbrev TradeRecord := Nat × TradeData

/-- Payload of a `strategy_log` event. -/
structure LogData where
  message : String
  level : String
deriving DecidableEq, Repr

/-- A record of the strategy log: `{"timestamp": now, **log_data}`. -/
abbrev LogRecord := Nat × LogData

/-- The tagged event dict `{"type": ..., "data": ...}` accepted by
`update_state`.  The first seven constructors are the seven recognised
`type` strings; `unknown tag` stands for an event whose `type` field is any
other string (or is absent). -/
inductive Event where
  | systemStatus (d : SystemStatusDelta)
  | positionsEv (d : Positions)
  | predictionsEv (d : Predictions)
  | tradeExecution (d : TradeData)
  | strategyLog (d : LogData)
  | performanceEv (d : PerformanceDelta)
  | riskMetricsEv (d : RiskDelta)
  | unknown (tag : String)
deriving DecidableEq, Repr

/-- The whole mutable state of one `StateManager` instance, plus the list of
events handed to the Change Notifier (`_push_to_webui`). -/
structure State where
  max_history : Nat
  system_status : SystemStatus
  positions : Positions
  predictions : Predictions
  trading_history : List TradeRecord
  strategy_logs : List LogRecord
  performance_stats : PerformanceStats
  risk_metrics : RiskMetrics
  pushed : List Event
deriving DecidableEq, Repr

/-- `StateManager.__init__(max_history)`: empty/zero defaults. -/
def initialState (m : Nat) : State :=
  { max_history := m
    system_status :=
      { is_running := false, last_update := none, last_strategy_run := none
        next_strategy_run := none, simulation_mode := true, error_count := 0
        total_runs := 0 }
    positions := []
    predictions := []
    trading_history := []
    strategy_logs := []
    performance_stats :=
      { total_trades := 0, successful_trades := 0, failed_trades := 0
        total_profit_loss := 0, total_volume := 0, start_balance := 0
        current_balance := 0 }
    risk_metrics :=
      { total_exposure := 0, max_single_position := 0, position_count := 0
        usdt_reserve := 0, total_value := 0 }
    pushed := [] }

/-- Appending to a `collections.deque` with `maxlen = m`: the new element
goes to the right and, once the deque is full, the oldest (leftmost) entry is
evicted. -/
def dequeAppend (m : Nat) (xs : List α) (x : α) : List α :=
  (xs ++ [x]).drop (xs.length + 1 - m)

/-- `deque(iterable, maxlen = m)`: keeps the last `m` elements of the
iterable. -/
def dequeOfList (m : Nat) (xs : List α) : List α :=
  xs.drop (xs.length - m)

/-- Accumulator of the loop in `_calculate_risk_metrics`
(`total_value`, `max_position`, `position_count`, `usdt_reserve`). -/
structure RiskAcc where
  total : Rat
  maxp : Rat
  count : Nat
  reserve : Rat
deriving DecidableEq, Repr

/-- The `for asset, info in self.positions.items()` loop of
`_calculate_risk_metrics`. -/
def calcRiskLoop : Positions → RiskAcc → RiskAcc
  | [], acc => acc
  | (asset, info) :: rest, acc =>
    let v := info.usd_value.getD 0
    if asset = "USDT" then
      calcRiskLoop rest { total := acc.total + v, maxp := acc.maxp, count := acc.count, reserve := v }
    else
      calcRiskLoop rest { total := acc.total + v, maxp := max acc.maxp v, count := acc.count + 1, reserve := acc.reserve }

/-- The five values `_calculate_risk_metrics` writes into `risk_metrics`
when the position map is non-empty. -/
def calcRiskMetricsOf (ps : Positions) : RiskMetrics :=
  let acc := calcRiskLoop ps { total := 0, maxp := 0, count := 0, reserve := 0 }
  { total_exposure := if acc.total > 0 then (acc.total - acc.reserve) / acc.total else 0
    max_single_position := acc.maxp
    position_count := acc.count
    usdt_reserve := acc.reserve
    total_value := acc.total }

/-- `_update_positions`: replace the position map wholesale, then run
`_calculate_risk_metrics`, which returns without touching `risk_metrics`
when the new map is empty (`if not self.positions: return`). -/
def updatePositions (s : State) (d : Positions) : State :=
  { s with
    positions := d
    risk_metrics := if d.isEmpty then s.risk_metrics else calcRiskMetricsOf d }

/-- `_record_trade`: append the stamped record to the bounded history and
bump the performance counters (`status == "success"` decides which bucket;
`volume_usdt` is added only when the key is present). -/
def recordTrade (s : State) (now : Nat) (d : TradeData) : State :=
  let p := s.performance_stats
  { s with
    trading_history := dequeAppend s.max_history s.trading_history (now, d)
    performance_stats :=
      { p with
        total_trades := p.total_trades + 1
        successful_trades :=
          if d.status = some "success" then p.successful_trades + 1 else p.successful_trades
        failed_trades :=
          if d.status = some "success" then p.failed_trades else p.failed_trades + 1
        total_volume :=
          match d.volume_usdt with
          | some v => p.total_volume + v
          | none => p.total_volume } }

/-- `update_state(state_data)`: inside the lock, dispatch on the `type`
string (an unrecognised type matches no branch and mutates nothing), then
stamp `system_status["last_update"]`, then call `_push_to_webui` — still
inside the `with self.lock:` block. -/
def updateState (now : Nat) (e : Event) (s : State) : State :=
  let s1 :=
    match e with
    | .systemStatus d => { s with system_status := applyStatusDelta s.system_status d }
    | .positionsEv d => updatePositions s d
    | .predictionsEv d => { s with predictions := d }
    | .tradeExecution d => recordTrade s now d
    | .strategyLog d => { s with strategy_logs := dequeAppend s.max_history s.strategy_logs (now, d) }
    | .performanceEv d => { s with performance_stats := applyPerformanceDelta s.performance_stats d }
    | .riskMetricsEv d => { s with risk_metrics := applyRiskDelta s.risk_metrics d }
    | .unknown _ => s
  let s2 := { s1 with system_status := { s1.system_status with last_update := some now } }
  { s2 with pushed := s2.pushed ++ [e] }

/-- `get_system_status` (returns a copy; copying is identity here). -/
def getSystemStatus (s : State) : SystemStatus := s.system_status

/-- `get_positions`. -/
def getPositions (s : State) : Positions := s.positions

/-- `get_predictions`. -/
def getPredictions (s : State) : Predictions := s.predictions

/-- `get_trading_history(limit)`: `history[-limit:] if limit else history`.
Python's negative slice keeps the last `limit` entries; `Nat` subtraction
reproduces the clamp at zero. -/
def getTradingHistory (s : State) (limit : Nat) : List TradeRecord :=
  if limit = 0 then s.trading_history
  else s.trading_history.drop (s.trading_history.length - limit)

/-- `get_trading_history()` with the limit left unspecified: the Python
default argument is `limit = 50`. -/
def getTradingHistoryDefault (s : State) : List TradeRecord :=
  getTradingHistory s 50

/-- `get_strategy_logs(limit)`. -/
def getStrategyLogs (s : State) (limit : Nat) : List LogRecord :=
  if limit = 0 then s.strategy_logs
  else s.strategy_logs.drop (s.strategy_logs.length - limit)

/-- `get_strategy_logs()` with the limit left unspecified: the Python
default argument is `limit = 100`. -/
def getStrategyLogsDefault (s : State) : List LogRecord :=
  getStrategyLogs s 100

/-- `get_performance_stats`. -/
def getPerformanceStats (s : State) : PerformanceStats := s.performance_stats

/-- `get_risk_metrics`. -/
def getRiskMetrics (s : State) : RiskMetrics := s.risk_metrics

/-! ### Persist / Restore (`save_state` / `load_state`) -/

/-- A persisted top-level value for one of the two history arrays: either a
JSON array (which `deque(...)` accepts) or a JSON scalar, which makes
`deque(value, maxlen=...)` raise `TypeError`. -/
inductive HistField (α : Type) where
  | jlist (l : List α)
  | notIterable
deriving DecidableEq, Repr

/-- The persisted JSON document.  A `none` field is an absent top-level key
(`state_data.get` then falls back). -/
structure Doc where
  system_status : Option SystemStatus
  positions : Option Positions
  predictions : Option Predictions
  performance_stats : Option PerformanceStats
  risk_metrics : Option RiskMetrics
  trading_history : Option (HistField TradeRecord)
  strategy_logs : Option (HistField LogRecord)
  saved_at : Option Nat
deriving DecidableEq, Repr

/-- `save_state`: dump every field plus a `saved_at` stamp. -/
def saveState (now : Nat) (s : State) : Doc :=
  { system_status := some s.system_status
    positions := some s.positions
    predictions := some s.predictions
    performance_stats := some s.performance_stats
    risk_metrics := some s.risk_metrics
    trading_history := some (.jlist s.trading_history)
    strategy_logs := some (.jlist s.strategy_logs)
    saved_at := some now }

/-- What `load_state` is given: the file may be absent (early return), the
bytes may fail to parse — `json.load` raising, or the parsed value not being
a dict so that `state_data.get` raises before any assignment — or a parsed
document is obtained. -/
inductive LoadInput where
  | missing
  | parseError
  | parsed (d : Doc)
deriving DecidableEq, Repr

/-- Result of a `load_state` call: whether it returned normally (`ok`), and
the store state when the call ends — the Python method mutates `self` field
by field, so an exception thrown midway leaves the earlier assignments in
place. -/
structure LoadOutcome where
  ok : Bool
  state : State
deriving DecidableEq, Repr

/-- `load_state`: assigns `system_status`, `positions`, `predictions`,
`performance_stats`, `risk_metrics` in that order, then rebuilds each deque;
`deque(x, maxlen=m)` raises if `x` is not iterable, aborting the method with
every assignment made so far retained. -/
def loadState (inp : LoadInput) (s : State) : LoadOutcome :=
  match inp with
  | .missing => { ok := true, state := s }
  | .parseError => { ok := false, state := s }
  | .parsed d =>
    let s1 := { s with
      system_status := d.system_status.getD s.system_status
      positions := d.positions.getD []
      predictions := d.predictions.getD []
      performance_stats := d.performance_stats.getD s.performance_stats
      risk_metrics := d.risk_metrics.getD s.risk_metrics }
    match d.trading_history.getD (.jlist []) with
    | .notIterable => { ok := false, state := s1 }
    | .jlist th =>
      let s2 := { s1 with trading_history := dequeOfList s.max_history th }
      match d.strategy_logs.getD (.jlist []) with
      | .notIterable => { ok := false, state := s2 }
      | .jlist sl =>
        { ok := true, state := { s2 with strategy_logs := dequeOfList s.max_history sl } }

/-! ### Lock/notifier ordering inside `update_state` -/

/-- The observable steps `update_state` performs, in program order. -/
inductive LockStep where
  | acquire
  | applyEvent
  | stampLastUpdate
  | pushToWebui
  | release
deriving DecidableEq, Repr

/-- The sequence of steps of one `update_state(state_data)` call: the
`with self.lock:` block spans dispatch, the `last_update` stamp and the
`_push_to_webui` call; the lock is released only when the block exits.  An
unrecognised event type matches no dispatch branch. -/
def updateStateTrace (e : Event) : List LockStep :=
  let dispatch : List LockStep :=
    match e with
    | .unknown _ => []
    | _ => [.applyEvent]
  [.acquire] ++ dispatch ++ [.stampLastUpdate, .pushToWebui, .release]

/-! ### Order Allocator (`KronosMainStrategy._execute_trading_decisions`) -/

/-- One advisory trade intent (`trading_actions` entry).  `confidence` and
`reason` are only logged / copied into the trade record and do not influence
sizing, so they are omitted. -/
structure TradingAction where
  symbol : String
  action : String
  quantity_usdt : Rat
deriving DecidableEq, Repr

/-- A finalized order handed to `_execute_buy_order` / `_execute_sell_order`. -/
structure OrderIntent where
  symbol : String
  side : String
  amount : Rat
deriving DecidableEq, Repr

/-- `total_buy_amount`: sum of `quantity_usdt` over BUY actions with a
positive amount. -/
def totalBuyAmount (actions : List TradingAction) : Rat :=
  ((actions.filter fun a => a.action = "BUY" ∧ a.quantity_usdt > 0).map
    fun a => a.quantity_usdt).sum

/-- `scale_factor`: pro-rata scaling with a 5% buffer when the requested BUY
total exceeds the available balance, else 1. -/
def scaleFactor (usdtBalance : Rat) (actions : List TradingAction) : Rat :=
  if totalBuyAmount actions > usdtBalance then
    usdtBalance / totalBuyAmount actions * (95 / 100)
  else 1

/-- The per-action body of the loop in `_execute_trading_decisions`:
skip HOLD and zero amounts; skip amounts below `min_trade_amount`
(checked on the raw, pre-scaling amount); scale BUY amounts; clamp to
`max_single_trade`; hand BUY/SELL to the respective execution helper
(any other action string executes nothing). -/
def processAction (minTrade maxSingle scale : Rat) (a : TradingAction) :
    Option OrderIntent :=
  if a.action = "HOLD" ∨ a.quantity_usdt = 0 then none
  else if a.quantity_usdt < minTrade then none
  else
    let q := if a.action = "BUY" then a.quantity_usdt * scale else a.quantity_usdt
    let q2 := if q > maxSingle then maxSingle else q
    if a.action = "BUY" then some { symbol := a.symbol, side := "BUY", amount := q2 }
    else if a.action = "SELL" then some { symbol := a.symbol, side := "SELL", amount := q2 }
    else none

/-- `_execute_trading_decisions`, as the pure allocation function: compute
the scale factor from the fresh balance, then process the intents in input
order. -/
def executeTradingDecisions (minTrade maxSingle usdtBalance : Rat)
    (actions : List TradingAction) : List OrderIntent :=
  actions.filterMap (processAction minTrade maxSingle (scaleFactor usdtBalance actions))

/-! ### Spec-side definitions, transcribed from the specification's words
(not from the source), for comparison against the embedded code. -/

/-- `usd_value` of one position entry with the absent-key default. -/
def posVal (p : String × PosInfo) : Rat := p.2.usd_value.getD 0

/-- Pure risk recomputation exactly as the spec states it (§4.2):
total value is the sum over all assets; reserve is the usd_value of the
designated reserve asset USDT (0 if absent); exposure is
`(total - reserve) / total` when total > 0 else 0; max single position is
the maximum usd_value over non-reserve assets (0 if none); position count
is the number of non-reserve assets with `usd_value > 0`. -/
def specRiskRecompute (ps : Positions) : RiskMetrics :=
  let total := (ps.map posVal).sum
  let reserve :=
    match ps.lookup "USDT" with
    | some info => info.usd_value.getD 0
    | none => 0
  let nonReserve := ps.filter fun p => p.1 ≠ "USDT"
  { total_exposure := if total > 0 then (total - reserve) / total else 0
    max_single_position := (nonReserve.map posVal).foldr max 0
    position_count := (nonReserve.filter fun p => posVal p > 0).length
    usdt_reserve := reserve
    total_value := total }

/-- The amended pure risk recomputation that the code actually implements on
a non-empty position map: as `specRiskRecompute`, except that
`position_count` counts every non-reserve asset, regardless of its
`usd_value`. -/
def specRiskAmended (ps : Positions) : RiskMetrics :=
  let total := (ps.map posVal).sum
  let reserve :=
    match ps.lookup "USDT" with
    | some info => info.usd_value.getD 0
    | none => 0
  let nonReserve := ps.filter fun p => p.1 ≠ "USDT"
  { total_exposure := if total > 0 then (total - reserve) / total else 0
    max_single_position := (nonReserve.map posVal).foldr max 0
    position_count := nonReserve.length
    usdt_reserve := reserve
    total_value := total }

/-- The per-intent step of the amended allocation contract: an intent is
dropped when its action is HOLD, its amount is zero, or its raw
(pre-scaling) amount is below `min_trade`; a surviving BUY amount is scaled
then clamped to `max_single_trade`, a surviving SELL amount is clamped
unchanged; any other action string emits nothing. -/
def allocAmendedStep (minTrade maxSingle scale : Rat) (a : TradingAction) :
    Option OrderIntent :=
  if a.action = "HOLD" ∨ a.quantity_usdt = 0 ∨ a.quantity_usdt < minTrade then none
  else if a.action = "BUY" then
    some { symbol := a.symbol, side := "BUY", amount := min (a.quantity_usdt * scale) maxSingle }
  else if a.action = "SELL" then
    some { symbol := a.symbol, side := "SELL", amount := min a.quantity_usdt maxSingle }
  else none

/-- The amended allocation contract: scale factor as in §4.3, then the
amended per-intent step, in input order. -/
def allocAmendedSpec (minTrade maxSingle usdtBalance : Rat)
    (actions : List TradingAction) : List OrderIntent :=
  actions.filterMap (allocAmendedStep minTrade maxSingle (scaleFactor usdtBalance actions))

/-! ## Theorems -/

/-- C2 (counterexample): an `update_state` call with the unrecognised type
string "bogus" is not rejected without mutation: on a fresh store it changes
`system_status` (its `last_update` field is stamped) and the event is still
handed to the Change Notifier, contradicting the claim that the state is
left unchanged and nothing is forwarded. -/
theorem C2_counterexample :
    getSystemStatus (updateState 5 (.unknown "bogus") (initialState 1000)) ≠
      getSystemStatus (initialState 1000) ∧
    (updateState 5 (.unknown "bogus") (initialState 1000)).pushed ≠
      (initialState 1000).pushed := by
  decide

/-- C2 (amended): an `update_state` call whose event kind is not one of the
seven recognised kinds matches no dispatch branch, so the seven payload
fields are untouched and no error is reported (the call returns normally) —
but the call still stamps `system_status.last_update` with the current time
and still forwards the event to the Change Notifier. -/
theorem C2_unknown_event (now : Nat) (tag : String) (s : State) :
    (updateState now (.unknown tag) s).positions = s.positions ∧
    (updateState now (.unknown tag) s).predictions = s.predictions ∧
    (updateState now (.unknown tag) s).trading_history = s.trading_history ∧
    (updateState now (.unknown tag) s).strategy_logs = s.strategy_logs ∧
    (updateState now (.unknown tag) s).performance_stats = s.performance_stats ∧
    (updateState now (.unknown tag) s).risk_metrics = s.risk_metrics ∧
    (updateState now (.unknown tag) s).system_status =
      { s.system_status with last_update := some now } ∧
    (updateState now (.unknown tag) s).pushed = s.pushed ++ [.unknown tag] := by
  refine ⟨rfl, rfl, rfl, rfl, rfl, rfl, rfl, rfl⟩

/-- C3 (counterexample): for a concrete Positions-replace event, the step
sequence of `update_state` performs the `_push_to_webui` call strictly
before the lock release (the push is inside the `with self.lock:` block),
refuting the claim that the network call is attempted only after the lock
has been released. -/
theorem C3_counterexample :
    LockStep.pushToWebui ∈ updateStateTrace (.positionsEv []) ∧
    LockStep.release ∈ updateStateTrace (.positionsEv []) ∧
    ¬ ((updateStateTrace (.positionsEv [])).indexOf LockStep.release <
        (updateStateTrace (.positionsEv [])).indexOf LockStep.pushToWebui) := by
  decide

/-- C3 (amended): in every `update_state` call the Change Notifier hand-off
is performed while the lock is still held: the trace is an acquire followed
by the critical-section body, with the push as the last step before the
single lock release. -/
theorem C3_push_inside_lock (e : Event) :
    (updateStateTrace e).head? = some LockStep.acquire ∧
    ∃ pre : List LockStep,
      updateStateTrace e = pre ++ [LockStep.pushToWebui, LockStep.release] ∧
      LockStep.release ∉ pre := by
  cases e <;>
    first
    | exact ⟨rfl, [LockStep.acquire, LockStep.applyEvent, LockStep.stampLastUpdate],
        rfl, by decide⟩
    | exact ⟨rfl, [LockStep.acquire, LockStep.stampLastUpdate], rfl, by decide⟩

/-- C4 (counterexample): with `min_trade = 50`, `max_single_trade = 500`,
balance 50 and the single intent BUY 60: the pre-scale amount 60 is at
least `min_trade` while the post-scale amount 47.5 is below it, yet the
intent is not dropped — it is emitted with amount 47.5, because the code
checks `min_trade` against the raw amount before applying the scale
factor. -/
theorem C4_counterexample :
    (50 : Rat) ≤ (60 : Rat) ∧
    (60 : Rat) * scaleFactor 50 [{ symbol := "BTCUSDT", action := "BUY", quantity_usdt := 60 }] < 50 ∧
    executeTradingDecisions 50 500 50
        [{ symbol := "BTCUSDT", action := "BUY", quantity_usdt := 60 }] =
      [{ symbol := "BTCUSDT", side := "BUY", amount := 95 / 2 }] := by
  refine ⟨by norm_num, ?_, ?_⟩ <;>
    norm_num [executeTradingDecisions, processAction, scaleFactor, totalBuyAmount,
      List.filterMap_cons] <;> rfl

/-- C5: with `available_budget = 0` and the single intent BUY 100 (so
`buy_total = 100 > 0`), the code computes `scale = 0` with no non-negative
floor applied and does not drop the BUY — `min_trade` was checked against
the pre-scale amount 100 — so a BUY order with amount exactly 0 is handed
to the order-execution step, contradicting the required behaviour. -/
theorem C5_failing_eval :
    scaleFactor 0 [{ symbol := "BTCUSDT", action := "BUY", quantity_usdt := 100 }] = 0 ∧
    executeTradingDecisions 50 500 0
        [{ symbol := "BTCUSDT", action := "BUY", quantity_usdt := 100 }] =
      [{ symbol := "BTCUSDT", side := "BUY", amount := 0 }] := by
  constructor <;>
    norm_num [executeTradingDecisions, processAction, scaleFactor, totalBuyAmount,
      List.filterMap_cons] <;> rfl

/-- C7 (counterexample): on a store holding 51 trade records, calling
`get_trading_history` with the limit unspecified does not return the full
bounded log — the Python default argument is `limit = 50`, so only the
newest 50 records come back. -/
theorem C7_counterexample :
    getTradingHistoryDefault
        { initialState 1000 with
          trading_history := (List.range 51).map fun i =>
            (i, { symbol := "BTCUSDT", action := "BUY", status := none, volume_usdt := none }) } ≠
      getTradingHistory
        { initialState 1000 with
          trading_history := (List.range 51).map fun i =>
            (i, { symbol := "BTCUSDT", action := "BUY", status := none, volume_usdt := none }) }
        0 := by
  decide

/-- C6 (counterexample): `load_state` given a parsed document whose
`positions` key is an empty map and whose `trading_history` key holds a
non-iterable value raises a deserialization error (the call does not return
normally) — but the store's `positions` field has already been overwritten,
so the prior state is not left intact: the document was partially applied. -/
theorem C6_counterexample :
    (loadState
        (.parsed
          { system_status := none, positions := some [], predictions := none
            performance_stats := none, risk_metrics := none
            trading_history := some .notIterable, strategy_logs := none
            saved_at := none })
        (updateState 0 (.positionsEv [("BTC", { usd_value := some 700 })])
          (initialState 1000))).ok = false ∧
    (loadState
        (.parsed
          { system_status := none, positions := some [], predictions := none
            performance_stats := none, risk_metrics := none
            trading_history := some .notIterable, strategy_logs := none
            saved_at := none })
        (updateState 0 (.positionsEv [("BTC", { usd_value := some 700 })])
          (initialState 1000))).state.positions ≠
      (updateState 0 (.positionsEv [("BTC", { usd_value := some 700 })])
        (initialState 1000)).positions := by
  refine ⟨rfl, ?_⟩
  simp [loadState, updateState, updatePositions]

/-- C6 (amended): an unparseable persisted document (or one whose top-level
value is not an object, so that the first key access raises) is rejected
atomically — a deserialization error is reported and every field of the
store is left exactly as it was.  But a document that parses as an object
and carries a non-iterable `trading_history` value raises only after the
scalar fields have been assigned: the error is still reported and the two
logs keep their prior contents, yet `positions` (and the other scalar
fields) already hold the document's values — the document is partially
applied. -/
theorem C6_restore_atomicity :
    (∀ s : State, loadState .parseError s = { ok := false, state := s }) ∧
    (∀ (s : State) (d : Doc), d.trading_history = some .notIterable →
        (loadState (.parsed d) s).ok = false ∧
        (loadState (.parsed d) s).state.trading_history = s.trading_history ∧
        (loadState (.parsed d) s).state.strategy_logs = s.strategy_logs ∧
        (loadState (.parsed d) s).state.positions = d.positions.getD []) := by
  refine ⟨fun s => rfl, fun s d h => ?_⟩
  simp [loadState, h]

/-- C6 witness: the amended theorem applied at a concrete store and a
concrete document with a non-iterable `trading_history`. -/
theorem C6_restore_atomicity_witness :
    (loadState
        (.parsed
          { system_status := none, positions := some [("ETH", { usd_value := some 5 })]
            predictions := none, performance_stats := none, risk_metrics := none
            trading_history := some .notIterable, strategy_logs := none
            saved_at := none })
        (initialState 1000)).ok = false ∧
    (loadState
        (.parsed
          { system_status := none, positions := some [("ETH", { usd_value := some 5 })]
            predictions := none, performance_stats := none, risk_metrics := none
            trading_history := some .notIterable, strategy_logs := none
            saved_at := none })
        (initialState 1000)).state.trading_history = (initialState 1000).trading_history ∧
    (loadState
        (.parsed
          { system_status := none, positions := some [("ETH", { usd_value := some 5 })]
            predictions := none, performance_stats := none, risk_metrics := none
            trading_history := some .notIterable, strategy_logs := none
            saved_at := none })
        (initialState 1000)).state.strategy_logs = (initialState 1000).strategy_logs ∧
    (loadState
        (.parsed
          { system_status := none, positions := some [("ETH", { usd_value := some 5 })]
            predictions := none, performance_stats := none, risk_metrics := none
            trading_history := some .notIterable, strategy_logs := none
            saved_at := none })
        (initialState 1000)).state.positions =
      (Option.some [("ETH", { usd_value := some 5 })]).getD [] :=
  C6_restore_atomicity.2 (initialState 1000)
    { system_status := none, positions := some [("ETH", { usd_value := some 5 })]
      predictions := none, performance_stats := none, risk_metrics := none
      trading_history := some .notIterable, strategy_logs := none
      saved_at := none } rfl

/-- C7 (amended): for both bounded-log accessors, `limit = 0` returns the
full bounded log; a call with the limit unspecified uses the Python default
argument — 50 for the trade history, 100 for the strategy logs — rather
than returning the full log; and a positive `limit` returns exactly the
newest `limit` entries (a tail slice, in insertion order). -/
theorem C7_limit_semantics (s : State) (limit : Nat) (h : 0 < limit) :
    getTradingHistory s 0 = s.trading_history ∧
    getStrategyLogs s 0 = s.strategy_logs ∧
    getTradingHistoryDefault s = getTradingHistory s 50 ∧
    getStrategyLogsDefault s = getStrategyLogs s 100 ∧
    (getTradingHistory s limit).length = min limit s.trading_history.length ∧
    (getTradingHistory s limit).IsSuffix s.trading_history ∧
    (getStrategyLogs s limit).length = min limit s.strategy_logs.length ∧
    (getStrategyLogs s limit).IsSuffix s.strategy_logs := by
  have hne : limit ≠ 0 := Nat.pos_iff_ne_zero.mp h
  refine ⟨rfl, rfl, rfl, rfl, ?_, ?_, ?_, ?_⟩
  · simp [getTradingHistory, hne]
    omega
  · simp [getTradingHistory, hne]
    exact List.drop_suffix _ _
  · simp [getStrategyLogs, hne]
    omega
  · simp [getStrategyLogs, hne]
    exact List.drop_suffix _ _

/-- C7 witness: the amended theorem applied at a concrete store and the
concrete positive limit 2. -/
theorem C7_limit_semantics_witness :
    getTradingHistory (initialState 1000) 0 = (initialState 1000).trading_history ∧
    getStrategyLogs (initialState 1000) 0 = (initialState 1000).strategy_logs ∧
    getTradingHistoryDefault (initialState 1000) = getTradingHistory (initialState 1000) 50 ∧
    getStrategyLogsDefault (initialState 1000) = getStrategyLogs (initialState 1000) 100 ∧
    (getTradingHistory (initialState 1000) 2).length =
      min 2 (initialState 1000).trading_history.length ∧
    (getTradingHistory (initialState 1000) 2).IsSuffix (initialState 1000).trading_history ∧
    (getStrategyLogs (initialState 1000) 2).length =
      min 2 (initialState 1000).strategy_logs.length ∧
    (getStrategyLogs (initialState 1000) 2).IsSuffix (initialState 1000).strategy_logs :=
  C7_limit_semantics (initialState 1000) 2 (by decide)

/-- The loop body of `_execute_trading_decisions` coincides with the amended
per-intent contract: the `min_trade` test reads the raw pre-scaling amount,
and the final `max_single_trade` cap is a `min`. -/
theorem processAction_eq_amendedStep (minT maxS sc : Rat) (a : TradingAction) :
    processAction minT maxS sc a = allocAmendedStep minT maxS sc a := by
  have hmin : ∀ q m : Rat, (if q > m then m else q) = min q m := by
    intro q m
    rcases le_or_lt q m with hq | hq
    · rw [if_neg (not_lt.mpr hq), min_eq_left hq]
    · rw [if_pos hq, min_eq_right hq.le]
  unfold processAction allocAmendedStep
  by_cases h1 : a.action = "HOLD" ∨ a.quantity_usdt = 0
  · have h2 : a.action = "HOLD" ∨ a.quantity_usdt = 0 ∨ a.quantity_usdt < minT := by
      tauto
    rw [if_pos h1, if_pos h2]
  · rw [if_neg h1]
    by_cases hm : a.quantity_usdt < minT
    · simp [hm, h1]
    · push_neg at h1
      by_cases hb : a.action = "BUY"
      · simp [hm, hb, h1.2, hmin]
      · by_cases hs : a.action = "SELL"
        · simp [hm, hb, hs, h1.1, h1.2, hmin]
        · simp [hm, hb, hs, h1.1, h1.2]

/-- C4 (amended): the Order Allocator applies its steps in this order: the
requested amount is first compared against `min_trade` — on the raw,
pre-scaling amount — and the intent is dropped exactly when that raw amount
is below `min_trade` (or the action is HOLD or the amount is zero); only
then is a BUY amount multiplied by the scale factor, and finally the
resulting amount is clamped to at most `max_single_trade`.  In particular a
BUY intent whose pre-scale amount is at least `min_trade` but whose
post-scale amount falls below `min_trade` is still emitted, with the
post-scale amount. -/
theorem C4_alloc_order (minT maxS bal : Rat) (actions : List TradingAction) :
    executeTradingDecisions minT maxS bal actions =
      allocAmendedSpec minT maxS bal actions := by
  unfold executeTradingDecisions allocAmendedSpec
  exact congrArg (List.filterMap · actions)
    (funext (processAction_eq_amendedStep minT maxS (scaleFactor bal actions)))

/-- C10: each `trade_execution` event increments `total_trades` by exactly
one and exactly one of `successful_trades` (when the record's `status` is
the string "success") or `failed_trades` (any other value, a missing key
included); consequently after any sequence of `trade_execution` events on a
fresh store, `total_trades = successful_trades + failed_trades`. -/
theorem C10_trade_counters :
    (∀ (s : State) (now : Nat) (d : TradeData),
        (updateState now (.tradeExecution d) s).performance_stats.total_trades =
          s.performance_stats.total_trades + 1 ∧
        (updateState now (.tradeExecution d) s).performance_stats.successful_trades =
          s.performance_stats.successful_trades +
            (if d.status = some "success" then 1 else 0) ∧
        (updateState now (.tradeExecution d) s).performance_stats.failed_trades =
          s.performance_stats.failed_trades +
            (if d.status = some "success" then 0 else 1)) ∧
    (∀ (m t : Nat) (ds : List TradeData),
        (ds.foldl (fun st d => updateState t (.tradeExecution d) st)
            (initialState m)).performance_stats.total_trades =
          (ds.foldl (fun st d => updateState t (.tradeExecution d) st)
              (initialState m)).performance_stats.successful_trades +
            (ds.foldl (fun st d => updateState t (.tradeExecution d) st)
                (initialState m)).performance_stats.failed_trades) := by
  have step : ∀ (s : State) (now : Nat) (d : TradeData),
      (updateState now (.tradeExecution d) s).performance_stats.total_trades =
        s.performance_stats.total_trades + 1 ∧
      (updateState now (.tradeExecution d) s).performance_stats.successful_trades =
        s.performance_stats.successful_trades +
          (if d.status = some "success" then 1 else 0) ∧
      (updateState now (.tradeExecution d) s).performance_stats.failed_trades =
        s.performance_stats.failed_trades +
          (if d.status = some "success" then 0 else 1) := by
    intro s now d
    by_cases h : d.status = some "success" <;>
      simp [updateState, recordTrade, h]
  refine ⟨step, fun m t ds => ?_⟩
  have inv : ∀ (ds : List TradeData) (s : State),
      s.performance_stats.total_trades =
        s.performance_stats.successful_trades + s.performance_stats.failed_trades →
      (ds.foldl (fun st d => updateState t (.tradeExecution d) st)
          s).performance_stats.total_trades =
        (ds.foldl (fun st d => updateState t (.tradeExecution d) st)
            s).performance_stats.successful_trades +
          (ds.foldl (fun st d => updateState t (.tradeExecution d) st)
              s).performance_stats.failed_trades := by
    intro ds
    induction ds with
    | nil => intro s hs; simpa using hs
    | cons d tl ih =>
      intro s hs
      rw [List.foldl_cons]
      refine ih _ ?_
      obtain ⟨h1, h2, h3⟩ := step s t d
      rw [h1, h2, h3, hs]
      by_cases h : d.status = some "success" <;> simp [h] <;> omega
  exact inv ds (initialState m) rfl

/-- The risk loop accumulates the total value of all entries. -/
theorem calcRiskLoop_total (ps : Positions) (acc : RiskAcc) :
    (calcRiskLoop ps acc).total = acc.total + (ps.map posVal).sum := by
  induction ps generalizing acc with
  | nil => simp [calcRiskLoop]
  | cons p tl ih =>
    obtain ⟨asset, info⟩ := p
    by_cases h : asset = "USDT" <;>
      simp [calcRiskLoop, h, ih, posVal] <;> ring

/-- The risk loop counts every non-USDT entry, whatever its value. -/
theorem calcRiskLoop_count (ps : Positions) (acc : RiskAcc) :
    (calcRiskLoop ps acc).count = acc.count + (ps.filter fun p => p.1 ≠ "USDT").length := by
  induction ps generalizing acc with
  | nil => simp [calcRiskLoop]
  | cons p tl ih =>
    obtain ⟨asset, info⟩ := p
    by_cases h : asset = "USDT" <;>
      simp [calcRiskLoop, h, ih, List.filter_cons] <;> omega

/-- A fold of `max` started at 0 is non-negative. -/
theorem foldr_max_nonneg (l : List Rat) : 0 ≤ l.foldr max 0 := by
  induction l with
  | nil => simp
  | cons x tl ih => simpa using le_trans ih (le_max_right x _)

/-- The risk loop's running maximum over non-USDT values. -/
theorem calcRiskLoop_maxp (ps : Positions) (acc : RiskAcc) (h : 0 ≤ acc.maxp) :
    (calcRiskLoop ps acc).maxp =
      max acc.maxp (((ps.filter fun p => p.1 ≠ "USDT").map posVal).foldr max 0) := by
  induction ps generalizing acc with
  | nil => simp [calcRiskLoop, max_eq_left h]
  | cons p tl ih =>
    obtain ⟨asset, info⟩ := p
    by_cases hA : asset = "USDT"
    · have h2 : (0 : Rat) ≤ (RiskAcc.mk (acc.total + info.usd_value.getD 0) acc.maxp
          acc.count (info.usd_value.getD 0)).maxp := h
      simp [calcRiskLoop, hA, ih _ h2, List.filter_cons]
    · have h2 : (0 : Rat) ≤ (RiskAcc.mk (acc.total + info.usd_value.getD 0)
          (max acc.maxp (info.usd_value.getD 0)) (acc.count + 1) acc.reserve).maxp :=
        le_trans h (le_max_left _ _)
      simp [calcRiskLoop, hA, ih _ h2, List.filter_cons, posVal, max_assoc]

/-- If USDT never occurs, the risk loop leaves the reserve accumulator
untouched. -/
theorem calcRiskLoop_reserve_not_mem (ps : Positions) (acc : RiskAcc)
    (h : "USDT" ∉ ps.map Prod.fst) :
    (calcRiskLoop ps acc).reserve = acc.reserve := by
  induction ps generalizing acc with
  | nil => rfl
  | cons p tl ih =>
    obtain ⟨asset, info⟩ := p
    simp only [List.map_cons, List.mem_cons, not_or] at h
    simp [calcRiskLoop, Ne.symm h.1, ih _ h.2]

/-- With unique keys, the reserve computed by the risk loop is the value of
the USDT entry if one exists. -/
theorem calcRiskLoop_reserve (ps : Positions) (acc : RiskAcc)
    (h : (ps.map Prod.fst).Nodup) :
    (calcRiskLoop ps acc).reserve =
      (ps.lookup "USDT").elim acc.reserve fun info => info.usd_value.getD 0 := by
  induction ps generalizing acc with
  | nil => rfl
  | cons p tl ih =>
    obtain ⟨asset, info⟩ := p
    simp only [List.map_cons, List.nodup_cons] at h
    by_cases hA : asset = "USDT"
    · subst hA
      have hr := calcRiskLoop_reserve_not_mem tl
        (RiskAcc.mk (acc.total + info.usd_value.getD 0) acc.maxp acc.count
          (info.usd_value.getD 0)) h.1
      simp [calcRiskLoop, List.lookup, hr]
    · have hb : ("USDT" == asset) = false := beq_eq_false_iff_ne.mpr (Ne.symm hA)
      have hrec := ih (RiskAcc.mk (acc.total + info.usd_value.getD 0)
        (max acc.maxp (info.usd_value.getD 0)) (acc.count + 1) acc.reserve) h.2
      simp [calcRiskLoop, List.lookup, hA, hb, hrec]

/-- On a position map with unique keys, the non-empty-case computation of
`_calculate_risk_metrics` equals the amended pure recomputation. -/
theorem calcRiskMetricsOf_spec (ps : Positions) (h : (ps.map Prod.fst).Nodup) :
    calcRiskMetricsOf ps = specRiskAmended ps := by
  simp only [calcRiskMetricsOf, specRiskAmended]
  rw [calcRiskLoop_total, calcRiskLoop_count,
    calcRiskLoop_maxp _ _ le_rfl, calcRiskLoop_reserve _ _ h]
  simp only [zero_add, Nat.zero_add, max_eq_right (foldr_max_nonneg _)]
  cases ps.lookup "USDT" <;> simp

/-- C1 (counterexample): replay the sequence — first a Positions-replace
installing the snapshot with BTC at 700 and USDT at 300, then a
Positions-replace carrying the empty map.  A `GetRiskMetrics` read
immediately after the second event does not return the §4.2 recomputation
of the installed (empty) snapshot: `_calculate_risk_metrics` returns early
on an empty map, leaving the previous metrics (position count 1, total
1000) in place, whereas the pure recomputation of the empty snapshot is all
zeros. -/
theorem C1_counterexample :
    getRiskMetrics
        (updateState 1 (.positionsEv [])
          (updateState 0
            (.positionsEv
              [("BTC", { usd_value := some 700 }), ("USDT", { usd_value := some 300 })])
            (initialState 1000))) ≠
      specRiskRecompute
        (getPositions
          (updateState 1 (.positionsEv [])
            (updateState 0
              (.positionsEv
                [("BTC", { usd_value := some 700 }), ("USDT", { usd_value := some 300 })])
              (initialState 1000)))) := by
  intro h
  exact absurd (congrArg RiskMetrics.position_count h) (by decide)

/-- C1 (amended): a `GetRiskMetrics` read immediately after a
Positions-replace event returns the pure recomputation applied to the
installed snapshot whenever that snapshot is non-empty, where — unlike the
claim — `position_count` counts every non-reserve asset regardless of its
`usd_value` (the maximum is taken with a floor of 0); a Positions-replace
carrying an empty map leaves the risk metrics unchanged instead of
recomputing them. -/
theorem C1_risk_recompute (s : State) (now : Nat) (d : Positions)
    (h : (d.map Prod.fst).Nodup) :
    getRiskMetrics (updateState now (.positionsEv d) s) =
      if d.isEmpty then getRiskMetrics s else specRiskAmended d := by
  have hbase : getRiskMetrics (updateState now (.positionsEv d) s) =
      if d.isEmpty then s.risk_metrics else calcRiskMetricsOf d := rfl
  rw [hbase]
  by_cases hd : d.isEmpty
  · simp [hd, getRiskMetrics]
  · simp only [hd, if_false]
    exact calcRiskMetricsOf_spec d h

/-- C1 witness: the amended theorem applied to the concrete snapshot with
BTC at 700 and USDT at 300 installed on a fresh store. -/
theorem C1_risk_recompute_witness :
    getRiskMetrics (updateState 0
        (.positionsEv
          [("BTC", { usd_value := some 700 }), ("USDT", { usd_value := some 300 })])
        (initialState 1000)) =
      if ([("BTC", { usd_value := some 700 }),
            ("USDT", { usd_value := some 300 })] : Positions).isEmpty
      then getRiskMetrics (initialState 1000)
      else specRiskAmended
        [("BTC", { usd_value := some 700 }), ("USDT", { usd_value := some 300 })] :=
  C1_risk_recompute (initialState 1000) 0 _ (by decide)

/-- Length of a bounded-deque append. -/
theorem length_dequeAppend (m : Nat) (xs : List α) (x : α) :
    (dequeAppend m xs x).length = min (xs.length + 1) m := by
  simp [dequeAppend]
  omega

/-- Folding bounded-deque appends over a list keeps exactly the newest `m`
elements of accumulator-then-list. -/
theorem foldl_dequeAppend (m : Nat) (l : List α) :
    ∀ acc : List α, acc.length ≤ m →
      List.foldl (dequeAppend m) acc l = (acc ++ l).drop (acc.length + l.length - m) := by
  induction l with
  | nil =>
    intro acc h
    simp [Nat.sub_eq_zero_of_le h]
  | cons x t ih =>
    intro acc h
    have hlen : (dequeAppend m acc x).length ≤ m := by
      rw [length_dequeAppend]
      omega
    rw [List.foldl_cons, ih (dequeAppend m acc x) hlen]
    have hd : acc.length + 1 - m ≤ (acc ++ [x]).length := by
      simp
    calc ((acc ++ [x]).drop (acc.length + 1 - m) ++ t).drop
            ((dequeAppend m acc x).length + t.length - m)
        = (((acc ++ [x]) ++ t).drop (acc.length + 1 - m)).drop
            ((dequeAppend m acc x).length + t.length - m) := by
          rw [List.drop_append_of_le_length hd]
      _ = ((acc ++ [x]) ++ t).drop
            ((acc.length + 1 - m) + ((dequeAppend m acc x).length + t.length - m)) := by
          rw [List.drop_drop]
      _ = (acc ++ x :: t).drop (acc.length + (x :: t).length - m) := by
          have hl := length_dequeAppend m acc x
          rw [List.append_assoc, List.singleton_append]
          congr 1
          simp only [List.length_cons]
          omega

/-- `update_state` never changes the configured capacity. -/
theorem updateState_max_history (now : Nat) (e : Event) (s : State) :
    (updateState now e s).max_history = s.max_history := by
  cases e <;> rfl

/-- Each `update_state` call either leaves a log untouched or leaves it at
length at most the capacity. -/
theorem updateState_logs_bound (now : Nat) (e : Event) (s : State) :
    ((updateState now e s).trading_history = s.trading_history ∨
      (updateState now e s).trading_history.length ≤ s.max_history) ∧
    ((updateState now e s).strategy_logs = s.strategy_logs ∨
      (updateState now e s).strategy_logs.length ≤ s.max_history) := by
  cases e
  case tradeExecution d =>
    refine ⟨Or.inr ?_, Or.inl rfl⟩
    have hr : (updateState now (.tradeExecution d) s).trading_history =
        dequeAppend s.max_history s.trading_history (now, d) := rfl
    rw [hr, length_dequeAppend]
    omega
  case strategyLog d =>
    refine ⟨Or.inl rfl, Or.inr ?_⟩
    have hr : (updateState now (.strategyLog d) s).strategy_logs =
        dequeAppend s.max_history s.strategy_logs (now, d) := rfl
    rw [hr, length_dequeAppend]
    omega
  all_goals exact ⟨Or.inl rfl, Or.inl rfl⟩

/-- Folding any event sequence preserves the capacity bound on both logs. -/
theorem foldState_logs_le (es : List (Nat × Event)) :
    ∀ s : State,
      s.trading_history.length ≤ s.max_history →
      s.strategy_logs.length ≤ s.max_history →
      (es.foldl (fun st p => updateState p.1 p.2 st) s).trading_history.length ≤
          s.max_history ∧
        (es.foldl (fun st p => updateState p.1 p.2 st) s).strategy_logs.length ≤
          s.max_history := by
  induction es with
  | nil =>
    intro s h1 h2
    exact ⟨h1, h2⟩
  | cons p t ih =>
    intro s h1 h2
    rw [List.foldl_cons]
    have hm := updateState_max_history p.1 p.2 s
    have hb := updateState_logs_bound p.1 p.2 s
    have h1a : (updateState p.1 p.2 s).trading_history.length ≤
        (updateState p.1 p.2 s).max_history := by
      rw [hm]
      rcases hb.1 with he | he
      · rw [he]; exact h1
      · exact he
    have h2a : (updateState p.1 p.2 s).strategy_logs.length ≤
        (updateState p.1 p.2 s).max_history := by
      rw [hm]
      rcases hb.2 with he | he
      · rw [he]; exact h2
      · exact he
    have hres := ih (updateState p.1 p.2 s) h1a h2a
    rw [hm] at hres
    exact hres

/-- Folding `trade_execution` events is, on the trade-history component, a
fold of bounded-deque appends of the stamped records. -/
theorem foldTrades_history (t : Nat) (ds : List TradeData) :
    ∀ s : State,
      (ds.foldl (fun st d => updateState t (.tradeExecution d) st) s).trading_history =
        List.foldl (dequeAppend s.max_history) s.trading_history
          (ds.map fun d => (t, d)) := by
  induction ds with
  | nil => intro s; rfl
  | cons d tl ih =>
    intro s
    rw [List.foldl_cons, List.map_cons, List.foldl_cons,
      ih (updateState t (.tradeExecution d) s), updateState_max_history]
    rfl

/-- C8: both bounded logs never exceed the configured capacity (default
1000) under any sequence of `update_state` calls, and after N+k
`trade_execution` appends into a fresh store of capacity N,
`GetTradeHistory(0)` has length exactly N and holds the records k+1 through
N+k in insertion order — the oldest evicted first (FIFO). -/
theorem C8_bounded_fifo :
    (∀ (m : Nat) (es : List (Nat × Event)),
        (es.foldl (fun st p => updateState p.1 p.2 st)
            (initialState m)).trading_history.length ≤ m ∧
        (es.foldl (fun st p => updateState p.1 p.2 st)
            (initialState m)).strategy_logs.length ≤ m) ∧
    (∀ (m k t : Nat) (ds : List TradeData), ds.length = m + k →
        getTradingHistory
            (ds.foldl (fun st d => updateState t (.tradeExecution d) st)
              (initialState m)) 0 =
          (ds.map fun d => (t, d)).drop k ∧
        (getTradingHistory
            (ds.foldl (fun st d => updateState t (.tradeExecution d) st)
              (initialState m)) 0).length = m) := by
  constructor
  · intro m es
    exact foldState_logs_le es (initialState m) (by simp [initialState]) (by simp [initialState])
  · intro m k t ds h
    have hist : getTradingHistory
        (ds.foldl (fun st d => updateState t (.tradeExecution d) st) (initialState m)) 0 =
          (ds.map fun d => (t, d)).drop k := by
      have h0 : getTradingHistory
          (ds.foldl (fun st d => updateState t (.tradeExecution d) st) (initialState m)) 0 =
            (ds.foldl (fun st d => updateState t (.tradeExecution d) st)
              (initialState m)).trading_history := by
        simp [getTradingHistory]
      rw [h0, foldTrades_history t ds (initialState m)]
      have h1 : (initialState m).trading_history = ([] : List TradeRecord) := rfl
      have h2 : (initialState m).max_history = m := rfl
      rw [h1, h2, foldl_dequeAppend m _ [] (by simp)]
      simp [h]
    refine ⟨hist, ?_⟩
    rw [hist, List.length_drop, List.length_map, h]
    omega

/-- C8 witness: capacity 2, three appends — the history is the newest two
records, length exactly 2. -/
theorem C8_bounded_fifo_witness :
    getTradingHistory
        (([{ symbol := "A", action := "BUY", status := some "success", volume_usdt := none },
            { symbol := "B", action := "SELL", status := none, volume_usdt := none },
            { symbol := "C", action := "BUY", status := some "failed", volume_usdt := none }] :
              List TradeData).foldl
          (fun st d => updateState 7 (.tradeExecution d) st) (initialState 2)) 0 =
      (([{ symbol := "A", action := "BUY", status := some "success", volume_usdt := none },
          { symbol := "B", action := "SELL", status := none, volume_usdt := none },
          { symbol := "C", action := "BUY", status := some "failed", volume_usdt := none }] :
            List TradeData).map fun d => (7, d)).drop 1 ∧
    (getTradingHistory
        (([{ symbol := "A", action := "BUY", status := some "success", volume_usdt := none },
            { symbol := "B", action := "SELL", status := none, volume_usdt := none },
            { symbol := "C", action := "BUY", status := some "failed", volume_usdt := none }] :
              List TradeData).foldl
          (fun st d => updateState 7 (.tradeExecution d) st) (initialState 2)) 0).length = 2 :=
  C8_bounded_fifo.2 2 1 7 _ rfl

/-- C9: `Persist()` followed immediately by `Restore()` of the produced
document into a fresh store (same capacity, with both logs within that
capacity, as any store populated through `update_state` is) succeeds and
reproduces every accessor of the original store — here including even the
`last_update` timestamp inside the status, which the claim exempts. -/
theorem C9_persist_restore (s : State) (now m : Nat)
    (h1 : s.trading_history.length ≤ m) (h2 : s.strategy_logs.length ≤ m) :
    (loadState (.parsed (saveState now s)) (initialState m)).ok = true ∧
    getSystemStatus (loadState (.parsed (saveState now s)) (initialState m)).state =
      getSystemStatus s ∧
    getPositions (loadState (.parsed (saveState now s)) (initialState m)).state =
      getPositions s ∧
    getPredictions (loadState (.parsed (saveState now s)) (initialState m)).state =
      getPredictions s ∧
    getTradingHistory (loadState (.parsed (saveState now s)) (initialState m)).state 0 =
      getTradingHistory s 0 ∧
    getStrategyLogs (loadState (.parsed (saveState now s)) (initialState m)).state 0 =
      getStrategyLogs s 0 ∧
    getPerformanceStats (loadState (.parsed (saveState now s)) (initialState m)).state =
      getPerformanceStats s ∧
    getRiskMetrics (loadState (.parsed (saveState now s)) (initialState m)).state =
      getRiskMetrics s := by
  refine ⟨rfl, rfl, rfl, rfl, ?_, ?_, rfl, rfl⟩
  · show dequeOfList m s.trading_history = getTradingHistory s 0
    simp [dequeOfList, getTradingHistory, Nat.sub_eq_zero_of_le h1]
  · show dequeOfList m s.strategy_logs = getStrategyLogs s 0
    simp [dequeOfList, getStrategyLogs, Nat.sub_eq_zero_of_le h2]

/-- C9 witness: round trip of a store holding one trade record, at capacity
1000. -/
theorem C9_persist_restore_witness :
    (loadState
        (.parsed (saveState 3
          (updateState 2
            (.tradeExecution
              { symbol := "BTCUSDT", action := "BUY", status := some "success",
                volume_usdt := none })
            (initialState 1000))))
        (initialState 1000)).ok = true ∧
    getSystemStatus (loadState
        (.parsed (saveState 3
          (updateState 2
            (.tradeExecution
              { symbol := "BTCUSDT", action := "BUY", status := some "success",
                volume_usdt := none })
            (initialState 1000))))
        (initialState 1000)).state =
      getSystemStatus
        (updateState 2
          (.tradeExecution
            { symbol := "BTCUSDT", action := "BUY", status := some "success",
              volume_usdt := none })
          (initialState 1000)) ∧
    getPositions (loadState
        (.parsed (saveState 3
          (updateState 2
            (.tradeExecution
              { symbol := "BTCUSDT", action := "BUY", status := some "success",
                volume_usdt := none })
            (initialState 1000))))
        (initialState 1000)).state =
      getPositions
        (updateState 2
          (.tradeExecution
            { symbol := "BTCUSDT", action := "BUY", status := some "success",
              volume_usdt := none })
          (initialState 1000)) ∧
    getPredictions (loadState
        (.parsed (saveState 3
          (updateState 2
            (.tradeExecution
              { symbol := "BTCUSDT", action := "BUY", status := some "success",
                volume_usdt := none })
            (initialState 1000))))
        (initialState 1000)).state =
      getPredictions
        (updateState 2
          (.tradeExecution
            { symbol := "BTCUSDT", action := "BUY", status := some "success",
              volume_usdt := none })
          (initialState 1000)) ∧
    getTradingHistory (loadState
        (.parsed (saveState 3
          (updateState 2
            (.tradeExecution
              { symbol := "BTCUSDT", action := "BUY", status := some "success",
                volume_usdt := none })
            (initialState 1000))))
        (initialState 1000)).state 0 =
      getTradingHistory
        (updateState 2
          (.tradeExecution
            { symbol := "BTCUSDT", action := "BUY", status := some "success",
              volume_usdt := none })
          (initialState 1000)) 0 ∧
    getStrategyLogs (loadState
        (.parsed (saveState 3
          (updateState 2
            (.tradeExecution
              { symbol := "BTCUSDT", action := "BUY", status := some "success",
                volume_usdt := none })
            (initialState 1000))))
        (initialState 1000)).state 0 =
      getStrategyLogs
        (updateState 2
          (.tradeExecution
            { symbol := "BTCUSDT", action := "BUY", status := some "success",
              volume_usdt := none })
          (initialState 1000)) 0 ∧
    getPerformanceStats (loadState
        (.parsed (saveState 3
          (updateState 2
            (.tradeExecution
              { symbol := "BTCUSDT", action := "BUY", status := some "success",
                volume_usdt := none })
            (initialState 1000))))
        (initialState 1000)).state =
      getPerformanceStats
        (updateState 2
          (.tradeExecution
            { symbol := "BTCUSDT", action := "BUY", status := some "success",
              volume_usdt := none })
          (initialState 1000)) ∧
    getRiskMetrics (loadState
        (.parsed (saveState 3
          (updateState 2
            (.tradeExecution
              { symbol := "BTCUSDT", action := "BUY", status := some "success",
                volume_usdt := none })
            (initialState 1000))))
        (initialState 1000)).state =
      getRiskMetrics
        (updateState 2
          (.tradeExecution
            { symbol := "BTCUSDT", action := "BUY", status := some "success",
              volume_usdt := none })
          (initialState 1000)) :=
  C9_persist_restore
    (updateState 2
      (.tradeExecution
        { symbol := "BTCUSDT", action := "BUY", status := some "success",
          volume_usdt := none })
      (initialState 1000)) 3 1000 (by decide) (by decide)

end Kronos
